import Mathlib

/-!
Verification of the handwritten-spreadsheet OCR application (`src/app.py`)
against its natural-language specification.

The development shallowly embeds the application's core:
* `pyLoads` — Python's `json.loads` on a string (strict mode, as used by the app);
* `tryExtractJson` — the response parser `try_extract_json` (app.py lines 73-105);
* `extractAndFormatCsv` — the extraction orchestrator `extract_and_format_csv`
  (app.py lines 107-245), with the Ollama client modelled as an oracle mapping
  the call number to an outcome;
* `save` — the CSV-append endpoint body (app.py lines 404-432).

Modelling notes, stated once here:
* Strings are Lean `String`s (lists of unicode scalar values).  A `\uXXXX`
  escape denoting a lone surrogate — which Python would keep as a lone
  surrogate code unit, unrepresentable in a Lean `Char` — is mapped to the
  character `Char.ofNat code` yields (the null character).  No claim depends
  on lone surrogates.
* JSON numbers are kept as their source lexeme (`Json.num`), so no
  floating-point rounding is modelled; Python truthiness of a number is
  modelled as "its exact value is nonzero", which agrees with CPython except
  for lexemes whose float conversion underflows to 0.0.
* Resource exhaustion (Python recursion limits on deeply nested JSON) is not
  modelled; decoding is total.
* Python's whitespace notion for `str.strip` and for the regex class `\s`
  is modelled by `pyIsSpace` (the `str.isspace` character set).
-/

namespace Hwss

/-- JSON values as produced by `json.loads`: objects are insertion-ordered
key/value lists with the last duplicate key winning (Python `dict`
semantics, enforced by `upsert` during parsing); numbers keep their source
lexeme, including the Python-specific constants `NaN`, `Infinity` and
`-Infinity`. -/
inductive Json where
  | null : Json
  | bool (b : Bool) : Json
  | num (lex : String) : Json
  | str (s : String) : Json
  | arr (elems : List Json) : Json
  | obj (fields : List (String × Json)) : Json

/-- JSON inter-token whitespace, exactly the set skipped by Python's json
scanner (`WHITESPACE = [ \t\n\r]*`). -/
def jsonWs (c : Char) : Bool :=
  c = ' ' || c = '\t' || c = '\n' || c = '\r'

/-- Value of one hex digit, for `\uXXXX` escapes (code points 48-57 are the
digits, 97-102 lowercase a-f, 65-70 uppercase A-F). -/
def hexVal (c : Char) : Option Nat :=
  let n := c.toNat
  if 48 ≤ n && n ≤ 57 then some (n - 48)
  else if 97 ≤ n && n ≤ 102 then some (n - 87)
  else if 65 ≤ n && n ≤ 70 then some (n - 55)
  else none

/-- Insert a key/value pair into an object the way a Python `dict` does:
an existing key keeps its position and gets the new value, a new key is
appended. -/
def upsert : List (String × Json) → String → Json → List (String × Json)
  | [], k, v => [(k, v)]
  | (k', v') :: rest, k, v =>
    if k' = k then (k, v) :: rest else (k', v') :: upsert rest k v

/-- Does `p` occur as a prefix of `cs`? -/
def startsWith : List Char → List Char → Bool
  | [], _ => true
  | _ :: _, [] => false
  | a :: ps, b :: bs => a = b && startsWith ps bs

/-- Body of a JSON string after the opening quote, per Python's strict
`py_scanstring`: raw control characters below U+0020 are rejected, the
escapes are `\" \\ \/ \b \f \n \r \t \uXXXX`, and surrogate pairs written
as two `\u` escapes are combined. -/
def scanStringBody : Nat → List Char → List Char → Option (String × List Char)
  | 0, _, _ => none
  | _ + 1, [], _ => none
  | fuel + 1, c :: rest, acc =>
    if c = '"' then some (String.mk acc.reverse, rest)
    else if c = '\\' then
      match rest with
      | [] => none
      | e :: rest2 =>
        if e = '"' then scanStringBody fuel rest2 ('"' :: acc)
        else if e = '\\' then scanStringBody fuel rest2 ('\\' :: acc)
        else if e = '/' then scanStringBody fuel rest2 ('/' :: acc)
        else if e = 'b' then scanStringBody fuel rest2 ('\x08' :: acc)
        else if e = 'f' then scanStringBody fuel rest2 ('\x0c' :: acc)
        else if e = 'n' then scanStringBody fuel rest2 ('\n' :: acc)
        else if e = 'r' then scanStringBody fuel rest2 ('\r' :: acc)
        else if e = 't' then scanStringBody fuel rest2 ('\t' :: acc)
        else if e = 'u' then
          match rest2 with
          | h1 :: h2 :: h3 :: h4 :: rest3 =>
            match hexVal h1, hexVal h2, hexVal h3, hexVal h4 with
            | some a, some b, some c2, some d =>
              let code := ((a * 16 + b) * 16 + c2) * 16 + d
              if 0xd800 ≤ code && code ≤ 0xdbff then
                match rest3 with
                | '\\' :: 'u' :: g1 :: g2 :: g3 :: g4 :: rest4 =>
                  match hexVal g1, hexVal g2, hexVal g3, hexVal g4 with
                  | some a2, some b2, some c3, some d2 =>
                    let code2 := ((a2 * 16 + b2) * 16 + c3) * 16 + d2
                    if 0xdc00 ≤ code2 && code2 ≤ 0xdfff then
                      scanStringBody fuel rest4
                        (Char.ofNat (65536 + 1024 * (code - 55296) + (code2 - 56320)) :: acc)
                    else scanStringBody fuel rest3 (Char.ofNat code :: acc)
                  | _, _, _, _ => scanStringBody fuel rest3 (Char.ofNat code :: acc)
                | _ => scanStringBody fuel rest3 (Char.ofNat code :: acc)
              else scanStringBody fuel rest3 (Char.ofNat code :: acc)
            | _, _, _, _ => none
          | _ => none
        else none
    else if c.toNat < 0x20 then none
    else scanStringBody fuel rest (c :: acc)

/-- Fractional part of a number lexeme: `.` followed by at least one digit,
otherwise nothing is consumed (mirroring the `(\.\d+)?` group of Python's
`NUMBER_RE`). -/
def fracPart : List Char → List Char × List Char
  | '.' :: d :: rest =>
    if d.isDigit then
      let (ds, r) := rest.span (fun c => c.isDigit)
      ('.' :: d :: ds, r)
    else ([], '.' :: d :: rest)
  | cs => ([], cs)

/-- Exponent part of a number lexeme: `[eE][+-]?\d+`, otherwise nothing is
consumed. -/
def expPart : List Char → List Char × List Char
  | e :: s :: rest =>
    if e = 'e' || e = 'E' then
      if s = '+' || s = '-' then
        match rest with
        | d :: _ =>
          if d.isDigit then
            let (ds, r) := rest.span (fun c => c.isDigit)
            (e :: s :: ds, r)
          else ([], e :: s :: rest)
        | [] => ([], e :: s :: rest)
      else if s.isDigit then
        let (ds, r) := (s :: rest).span (fun c => c.isDigit)
        (e :: ds, r)
      else ([], e :: s :: rest)
    else ([], e :: s :: rest)
  | cs => ([], cs)

/-- Number lexeme at the head of the input, per Python's
`NUMBER_RE = (-?(?:0|[1-9]\d*))(\.\d+)?([eE][-+]?\d+)?`; in particular a
leading `0` is not followed by further integer digits. -/
def parseNumberLex (cs : List Char) : Option (List Char × List Char) :=
  let (sign, cs1) :=
    match cs with
    | '-' :: r => (['-'], r)
    | _ => (([] : List Char), cs)
  match cs1 with
  | c :: rest =>
    if c = '0' then
      let (frac, cs3) := fracPart rest
      let (ex, cs4) := expPart cs3
      some (sign ++ ['0'] ++ frac ++ ex, cs4)
    else if c.isDigit then
      let (ds, cs2) := rest.span (fun x => x.isDigit)
      let (frac, cs3) := fracPart cs2
      let (ex, cs4) := expPart cs3
      some (sign ++ (c :: ds) ++ frac ++ ex, cs4)
    else none
  | [] => none

mutual

/-- One JSON value at the head of the input (whitespace already skipped),
mirroring Python's `_scan_once` dispatch: string, object, array, the
keyword constants, then a number, then `NaN`, `Infinity`, `-Infinity`. -/
def parseValue : Nat → List Char → Option (Json × List Char)
  | 0, _ => none
  | fuel + 1, cs =>
    match cs with
    | [] => none
    | c :: rest =>
      if c = '"' then
        match scanStringBody (rest.length + 1) rest [] with
        | some (s, r) => some (Json.str s, r)
        | none => none
      else if c = '{' then
        let cs1 := rest.dropWhile jsonWs
        match cs1 with
        | '}' :: r => some (Json.obj [], r)
        | _ => parseMembers fuel cs1 []
      else if c = '[' then
        let cs1 := rest.dropWhile jsonWs
        match cs1 with
        | ']' :: r => some (Json.arr [], r)
        | _ => parseElems fuel cs1 []
      else if startsWith ['n','u','l','l'] cs then some (Json.null, cs.drop 4)
      else if startsWith ['t','r','u','e'] cs then some (Json.bool true, cs.drop 4)
      else if startsWith ['f','a','l','s','e'] cs then some (Json.bool false, cs.drop 5)
      else if startsWith ['N','a','N'] cs then some (Json.num "NaN", cs.drop 3)
      else if startsWith ['I','n','f','i','n','i','t','y'] cs then
        some (Json.num "Infinity", cs.drop 8)
      else if startsWith ['-','I','n','f','i','n','i','t','y'] cs then
        some (Json.num "-Infinity", cs.drop 9)
      else
        match parseNumberLex cs with
        | some (lex, r) => some (Json.num (String.mk lex), r)
        | none => none

/-- Members of a JSON object after `{` and leading whitespace, positioned at
the opening quote of a key; mirrors Python's `JSONObject` loop (keys must be
double-quoted strings, `:` separated, `,` continued, `}` terminated). -/
def parseMembers : Nat → List Char → List (String × Json) → Option (Json × List Char)
  | 0, _, _ => none
  | fuel + 1, cs, acc =>
    match cs with
    | '"' :: r =>
      match scanStringBody (r.length + 1) r [] with
      | some (k, cs2) =>
        match cs2.dropWhile jsonWs with
        | ':' :: cs4 =>
          match parseValue fuel (cs4.dropWhile jsonWs) with
          | some (v, cs5) =>
            let acc2 := upsert acc k v
            match cs5.dropWhile jsonWs with
            | '}' :: r2 => some (Json.obj acc2, r2)
            | ',' :: r2 => parseMembers fuel (r2.dropWhile jsonWs) acc2
            | _ => none
          | none => none
        | _ => none
      | none => none
    | _ => none

/-- Elements of a JSON array after `[` and leading whitespace, positioned at
the first element; mirrors Python's `JSONArray` loop. -/
def parseElems : Nat → List Char → List Json → Option (Json × List Char)
  | 0, _, _ => none
  | fuel + 1, cs, acc =>
    match parseValue fuel cs with
    | some (v, cs2) =>
      match cs2.dropWhile jsonWs with
      | ']' :: r => some (Json.arr (v :: acc).reverse, r)
      | ',' :: r => parseElems fuel (r.dropWhile jsonWs) (v :: acc)
      | _ => none
    | none => none

end

/-- Python's `json.loads` on a string: skip leading JSON whitespace, decode
one value, require only trailing JSON whitespace to remain ("Extra data"
otherwise); `none` models a raised `json.JSONDecodeError`. -/
def pyLoads (s : String) : Option Json :=
  let cs := s.data.dropWhile jsonWs
  match parseValue (2 * cs.length + 2) cs with
  | some (j, rest) => if rest.dropWhile jsonWs = [] then some j else none
  | none => none

example : pyLoads "42" = some (Json.num "42") := rfl
example : pyLoads " \x7b\"a\": 1\x7d " = some (Json.obj [("a", Json.num "1")]) := rfl
example : pyLoads "\x7b\"a\": [1, true, null, \"x\"]\x7d" =
    some (Json.obj [("a", Json.arr [Json.num "1", Json.bool true, Json.null, Json.str "x"])]) := rfl
example : pyLoads "\x7b\x7d" = some (Json.obj []) := rfl
example : pyLoads "[]" = some (Json.arr []) := rfl
example : pyLoads "" = none := rfl
example : pyLoads "01" = none := rfl
example : pyLoads "-Infinity" = some (Json.num "-Infinity") := rfl
example : pyLoads "1.5e-3" = some (Json.num "1.5e-3") := rfl
example : pyLoads "1." = none := rfl
example : pyLoads "\"a\\u00e9b\"" = some (Json.str "aéb") := rfl
example : pyLoads "\x7b\"a\":1,\"a\":2\x7d" = some (Json.obj [("a", Json.num "2")]) := rfl
example : pyLoads "\x7boops" = none := rfl
example : pyLoads "nullx" = none := rfl

/-- Python whitespace (the `str.isspace` character set), used by `str.strip()`
and by the regex class `\s` in the fence pattern. -/
def pyIsSpace (c : Char) : Bool :=
  let n := c.toNat
  n = 32 || (9 ≤ n && n ≤ 13) || (28 ≤ n && n ≤ 31) || n = 0x85 || n = 0xa0 ||
    n = 0x1680 || (0x2000 ≤ n && n ≤ 0x200a) || n = 0x2028 || n = 0x2029 ||
    n = 0x202f || n = 0x205f || n = 0x3000

/-- Python's `s.strip()` with no argument: drop leading and trailing
whitespace. -/
def pyStrip (s : String) : String :=
  String.mk (((s.data.dropWhile pyIsSpace).reverse.dropWhile pyIsSpace).reverse)

/-- The lazy body `.*?\}` of the fence pattern, with its continuation
`\s*` ``` : scan for the earliest `\x7d` that is followed (after greedy
whitespace) by three backticks; a candidate `\x7d` whose continuation fails is
absorbed into the body, exactly as the backtracking engine does.  Returns the
body (without the closing brace) and the input after the closing backticks. -/
def fenceBody : List Char → Option (List Char × List Char)
  | [] => none
  | c :: rest =>
    if c = '}' then
      let r := rest.dropWhile pyIsSpace
      if startsWith ['`','`','`'] r then some ([], r.drop 3)
      else
        match fenceBody rest with
        | some (b, rem) => some (c :: b, rem)
        | none => none
    else
      match fenceBody rest with
      | some (b, rem) => some (c :: b, rem)
      | none => none

/-- Match of the fence pattern ```` ```(?:json)?\s*(\{.*?\})\s*``` ````
(with `re.DOTALL`) anchored at the head of the input.  The optional `json`
is taken greedily; if it is present, the branch that skips it cannot succeed
(the next pattern characters `\s*\{` cannot match the letter `j`), so the
greedy choice is exact.  Returns the captured group and the input after the
whole match. -/
def matchFence (cs : List Char) : Option (List Char × List Char) :=
  if startsWith ['`','`','`'] cs then
    match (if startsWith ['j','s','o','n'] (cs.drop 3) then cs.drop 7 else cs.drop 3).dropWhile
        pyIsSpace with
    | '{' :: r3 =>
      match fenceBody r3 with
      | some (body, rest) => some ('{' :: (body ++ ['}']), rest)
      | none => none
    | _ => none
  else none

/-- `re.findall` of the fence pattern: scan left to right, take the leftmost
match, continue after its end (matches do not overlap), otherwise advance one
position.  The fuel is the input length; every step consumes at least one
character. -/
def scanFences : Nat → List Char → List (List Char)
  | 0, _ => []
  | _ + 1, [] => []
  | fuel + 1, c :: rest =>
    match matchFence (c :: rest) with
    | some (g, after) => g :: scanFences fuel after
    | none => scanFences fuel rest

/-- All captured groups of the fence pattern in `content`, in order of
appearance (the `matches` list of app.py line 80). -/
def fenceGroups (content : String) : List String :=
  (scanFences content.data.length content.data).map String.mk

/-- Index of the first occurrence of `c` (Python `str.find`, with -1 as
`none`). -/
def firstIdx (c : Char) : List Char → Option Nat
  | [] => none
  | x :: xs => if x = c then some 0 else (firstIdx c xs).map (· + 1)

/-- Index of the last occurrence of `c` (Python `str.rfind`, with -1 as
`none`). -/
def lastIdx (c : Char) (cs : List Char) : Option Nat :=
  match firstIdx c cs.reverse with
  | none => none
  | some i => some (cs.length - 1 - i)

/-- Python slice `s[a:b]` (indices clamped as in Python for `0 ≤ a ≤ b`). -/
def strSlice (s : String) (a b : Nat) : String :=
  String.mk ((s.data.drop a).take (b - a))

/-- Second strategy of `try_extract_json` (app.py lines 88-97): find the
first `\x7b` and the last `\x7d`; only when the latter is strictly later is
the inclusive substring decoded. -/
def braceScan (content : String) : Option Json :=
  match firstIdx '{' content.data with
  | none => none
  | some s =>
    match lastIdx '}' content.data with
    | none => none
    | some e => if s < e then pyLoads (strSlice content s (e + 1)) else none

/-- The response parser `try_extract_json` (app.py lines 73-105): first
decodable fenced group, else the brace-span decode, else the whole stripped
text; `none` models returning Python `None`. -/
def tryExtractJson (content : String) : Option Json :=
  match (fenceGroups content).findSome? (fun g => pyLoads (pyStrip g)) with
  | some j => some j
  | none =>
    match braceScan content with
    | some j => some j
    | none => pyLoads (pyStrip content)

/-- Modelled from the spec, section 4.1 step 1: "attempt strict JSON decode
on each match in order of appearance; return the first that decodes
successfully". -/
def fencedBlockStrategy (content : String) : Option Json :=
  (fenceGroups content).findSome? (fun g => pyLoads (pyStrip g))

/-- Modelled from the spec, section 4.1 step 2: "locate the first `\x7b` and
the last `\x7d` in the text and attempt to decode the substring between them
(inclusive)" — with no side condition on their relative order. -/
def braceSpanStrategy (content : String) : Option Json :=
  match firstIdx '{' content.data, lastIdx '}' content.data with
  | some s, some e => pyLoads (strSlice content s (e + 1))
  | _, _ => none

/-- Modelled from the spec, section 4.1 step 3: "attempt to decode the
entire trimmed text as JSON". -/
def wholeTextStrategy (content : String) : Option Json :=
  pyLoads (pyStrip content)

/-- Modelled from the spec, section 4.1: the three strategies tried in this
fixed order, first success winning, absence if all fail. -/
def tryExtractJsonSpec (content : String) : Option Json :=
  match fencedBlockStrategy content with
  | some j => some j
  | none =>
    match braceSpanStrategy content with
    | some j => some j
    | none => wholeTextStrategy content

/-- A well-formed fenced JSON object sitting at position `i` of `content`:
the fence pattern matches there and its captured group decodes. -/
def fencedObjectAt (content : String) (i : Nat) : Option Json :=
  match matchFence (content.data.drop i) with
  | some (g, _) => pyLoads (pyStrip (String.mk g))
  | none => none

/-- Every well-formed fenced JSON object occurring in `content`, listed by
position; `= [j]` formalises "the text contains exactly one well-formed
fenced JSON object, namely `j`". -/
def allFencedObjects (content : String) : List Json :=
  (List.range content.data.length).filterMap (fencedObjectAt content)

example : pyStrip "  a b\n" = "a b" := rfl
example : fenceGroups "x ```json \x7b\"a\": 1\x7d ``` y" = ["\x7b\"a\": 1\x7d"] := rfl
example : fenceGroups "``` \x7b\"a\": 1\x7d ```" = ["\x7b\"a\": 1\x7d"] := rfl
example : fenceGroups "```jso \x7b\"a\": 1\x7d ```" = [] := rfl
example : tryExtractJson "junk" = none := rfl
example : tryExtractJson "text \x7b\"a\": 1\x7d tail" = some (Json.obj [("a", Json.num "1")]) := rfl
example : tryExtractJson " 42 " = some (Json.num "42") := rfl
example : tryExtractJson "see ```json\n\x7b\"a\": [1]\x7d\n``` ok" =
    some (Json.obj [("a", Json.arr [Json.num "1"])]) := rfl

/-- Python truthiness of a number lexeme: `NaN` and the infinities are
truthy; otherwise the value is nonzero exactly when some mantissa digit
(before any exponent marker) is nonzero. -/
def numTruthy (lex : String) : Bool :=
  if lex = "NaN" || lex = "Infinity" || lex = "-Infinity" then true
  else (lex.data.takeWhile (fun c => !(c = 'e' || c = 'E'))).any
    (fun c => '1' ≤ c && c ≤ '9')

/-- Python truthiness of a decoded JSON value (`bool(x)`), as used by the
orchestrator's `if not formatted_data` / `if formatted_data` tests. -/
def pyTruthy : Json → Bool
  | Json.null => false
  | Json.bool b => b
  | Json.num lex => numTruthy lex
  | Json.str s => !(s == "")
  | Json.arr elems => !elems.isEmpty
  | Json.obj fields => !fields.isEmpty

/-- Truthiness of the parser's `Optional` result: Python `None` is falsy. -/
def pyTruthyOpt : Option Json → Bool
  | none => false
  | some j => pyTruthy j

/-- Split on a separator character, Python `str.split(',')` style: the empty
string yields one empty piece, separators are not grouped. -/
def splitOnChar (sep : Char) : List Char → List (List Char)
  | [] => [[]]
  | c :: rest =>
    let r := splitOnChar sep rest
    if c = sep then [] :: r
    else
      match r with
      | h :: t => (c :: h) :: t
      | [] => [[c]]

/-- Python `columns.split(',')`. -/
def pySplitComma (s : String) : List String :=
  (splitOnChar ',' s.data).map String.mk

/-- The orchestrator's column list (app.py line 112):
`[col.strip() for col in columns.split(',') if col.strip()] if columns.strip() else []`. -/
def pyColumnList (columns : String) : List String :=
  if pyStrip columns = "" then []
  else ((pySplitComma columns).map pyStrip).filter (fun col => !(col == ""))

/-- The orchestrator's mode flag (app.py line 113):
`auto_detect_mode = len(column_list) == 0`. -/
def autoDetectMode (columns : String) : Bool :=
  (pyColumnList columns).isEmpty

/-- `model_to_use = model or OLLAMA_MODEL` (app.py line 179): a missing
(`None`) or empty model identifier falls back to the configured default. -/
def resolveModel (model : Option String) (defaultModel : String) : String :=
  match model with
  | none => defaultModel
  | some m => if m = "" then defaultModel else m

/-- The `Additional instructions:` line of the prompts, empty when the
caller supplied no instructions (Python truthiness of the string). -/
def instructionsLine (instructions : String) : String :=
  if instructions = "" then "" else "Additional instructions: " ++ instructions

/-- The literal JSON example embedded in the auto-detect prompts
(app.py lines 128-134 and 206-212, which are identical). -/
def jsonExampleAuto : String :=
  "\x7b\"data\": [\n    \x7b\"header1\": \"value1\", \"header2\": \"value2\", \"header3\": \"value3\", \"header4\": \"value4\"\x7d,\n    \x7b\"header1\": \"value5\", \"header2\": \"value6\", \"header3\": \"value7\", \"header4\": \"value8\"\x7d\n], \"confidence\": [\n    \x7b\"header1\": 0.95, \"header2\": 0.87, \"header3\": 0.92, \"header4\": 0.78\x7d,\n    \x7b\"header1\": 0.89, \"header2\": 0.93, \"header3\": 0.85, \"header4\": 0.91\x7d\n]\x7d"

/-- The literal JSON example embedded in the fixed-mode prompts
(app.py lines 159-165 and 222-228, which are identical): it interpolates
`column_list[0]` through `column_list[3]`, so it exists only when at least
four columns were supplied. -/
def jsonExampleFixed (c0 c1 c2 c3 : String) : String :=
  "\x7b\"data\": [\n    \x7b\"" ++ c0 ++ "\": \"value1\", \"" ++ c1 ++ "\": \"value2\", \"" ++ c2 ++ "\": \"value3\", \"" ++ c3 ++ "\": \"value4\"\x7d,\n    \x7b\"" ++ c0 ++ "\": \"value5\", \"" ++ c1 ++ "\": \"value6\", \"" ++ c2 ++ "\": \"value7\", \"" ++ c3 ++ "\": \"value8\"\x7d\n], \"confidence\": [\n    \x7b\"" ++ c0 ++ "\": 0.95, \"" ++ c1 ++ "\": 0.87, \"" ++ c2 ++ "\": 0.92, \"" ++ c3 ++ "\": 0.78\x7d,\n    \x7b\"" ++ c0 ++ "\": 0.89, \"" ++ c1 ++ "\": 0.93, \"" ++ c2 ++ "\": 0.85, \"" ++ c3 ++ "\": 0.91\x7d\n]\x7d"

/-- The auto-detect extraction prompt (app.py lines 117-144). -/
def autoExtractionPrompt (instructions : String) : String :=
  "Perform Optical Character Recognition (OCR) on this handwritten spreadsheet image and convert it directly to CSV format.\n\nYour task is to:\n1. Read and extract ALL text content from the image\n2. Identify table structure, rows, and columns\n3. Detect the header row and use those as column names\n4. Return properly formatted CSV data with confidence scores\n\n"
  ++ instructionsLine instructions
  ++ "\n\nReturn ONLY valid JSON in this format (use the actual headers detected from the image):\n"
  ++ jsonExampleAuto
  ++ "\n\nRules:\n- Extract text accurately from the handwritten content\n- Use the actual column headers found in the image\n- Clean and format the data appropriately\n- Provide confidence scores (0.0-1.0) for each cell based on text clarity and legibility\n- Higher scores (0.8+) for clear, well-formed text\n- Lower scores (0.5-0.7) for unclear, smudged, or ambiguous text\n- Very low scores (0.0-0.4) for illegible or missing text\n- Return ONLY the JSON object, no explanations"

/-- The fixed-mode extraction prompt (app.py lines 147-176), given the first
four column names interpolated into the example. -/
def fixedExtractionPrompt (cols : List String) (c0 c1 c2 c3 instructions : String) : String :=
  "Perform Optical Character Recognition (OCR) on this handwritten spreadsheet image and convert it directly to CSV format.\n\nYour task is to:\n1. Read and extract ALL text content from the image\n2. Identify table structure, rows, and columns\n3. Map the extracted data to the specified column names\n4. Return properly formatted CSV data with confidence scores\n\nRequired columns: "
  ++ String.intercalate ", " cols
  ++ "\n"
  ++ instructionsLine instructions
  ++ "\n\nReturn ONLY valid JSON in this format:\n"
  ++ jsonExampleFixed c0 c1 c2 c3
  ++ "\n\nRules:\n- Extract text accurately from the handwritten content\n- Map values to the specified column names exactly\n- Clean and format the data appropriately\n- Ensure all required columns are present\n- Provide confidence scores (0.0-1.0) for each cell based on text clarity and legibility\n- Higher scores (0.8+) for clear, well-formed text\n- Lower scores (0.5-0.7) for unclear, smudged, or ambiguous text\n- Very low scores (0.0-0.4) for illegible or missing text\n- Return ONLY the JSON object, no explanations"

/-- The auto-detect correction prompt (app.py lines 200-212), embedding the
captured (stripped) failed response. -/
def autoCorrectionPrompt (content : String) : String :=
  "The previous extraction response was not valid JSON. Please fix it.\n\nPrevious response:\n"
  ++ content
  ++ "\n\nReturn ONLY valid JSON in this format (use the actual headers detected from the image):\n"
  ++ jsonExampleAuto

/-- The fixed-mode correction prompt (app.py lines 214-228). -/
def fixedCorrectionPrompt (cols : List String) (c0 c1 c2 c3 content : String) : String :=
  "The previous extraction response was not valid JSON. Please fix it.\n\nRequired columns: "
  ++ String.intercalate ", " cols
  ++ "\n\nPrevious response:\n"
  ++ content
  ++ "\n\nReturn ONLY valid JSON in this format:\n"
  ++ jsonExampleFixed c0 c1 c2 c3

/-- Construction of `extraction_prompt` (app.py lines 115-176).  In fixed
mode the f-string example indexes `column_list[0]`..`column_list[3]`, so
with fewer than four columns Python raises `IndexError`; that abnormal exit
is modelled as `none`. -/
def buildExtractionPrompt (autoDetect : Bool) (cols : List String) (instructions : String) :
    Option String :=
  if autoDetect then some (autoExtractionPrompt instructions)
  else
    match cols[0]?, cols[1]?, cols[2]?, cols[3]? with
    | some c0, some c1, some c2, some c3 =>
      some (fixedExtractionPrompt cols c0 c1 c2 c3 instructions)
    | _, _, _, _ => none

/-- Construction of `correction_prompt` (app.py lines 199-228), with the
same `IndexError` possibility in fixed mode. -/
def buildCorrectionPrompt (autoDetect : Bool) (cols : List String) (content : String) :
    Option String :=
  if autoDetect then some (autoCorrectionPrompt content)
  else
    match cols[0]?, cols[1]?, cols[2]?, cols[3]? with
    | some c0, some c1, some c2, some c3 =>
      some (fixedCorrectionPrompt cols c0 c1 c2 c3 content)
    | _, _, _, _ => none

/-- The original schema contract of the request, as the spec calls it: the
JSON example of the chosen mode. -/
def schemaContract (autoDetect : Bool) (cols : List String) : Option String :=
  if autoDetect then some jsonExampleAuto
  else
    match cols[0]?, cols[1]?, cols[2]?, cols[3]? with
    | some c0, some c1, some c2, some c3 => some (jsonExampleFixed c0 c1 c2 c3)
    | _, _, _, _ => none

/-- Outcome of one `ollama_client.chat` invocation: returned text, or a
raised transport/auth/timeout error carrying its message. -/
inductive ChatOutcome where
  | ok (text : String) : ChatOutcome
  | fail (err : String) : ChatOutcome

/-- One issued `ollama_client.chat` call: the model, the single user
message's content, and the attached images. -/
structure ChatCall where
  model : String
  content : String
  images : List String

/-- Abnormal exits of `extract_and_format_csv`: the `IndexError` from the
fixed-mode f-string, a propagated chat exception, or the
`raise Exception(...)` of line 245. -/
inductive ExtractErr where
  | indexError : ExtractErr
  | chatError (err : String) : ExtractErr
  | extractionFailed (msg : String) : ExtractErr

/-- The fixed diagnostic message of `raise Exception(...)` (app.py line 245). -/
def failMsg : String := "Failed to extract and format data from image"

/-- The final `if formatted_data: return formatted_data else: raise`
(app.py lines 241-245), including Python truthiness of the parsed value. -/
def pyFinalize : Option Json → Except ExtractErr Json
  | some j => if pyTruthy j then Except.ok j else Except.error (ExtractErr.extractionFailed failMsg)
  | none => Except.error (ExtractErr.extractionFailed failMsg)

/-- The extraction orchestrator `extract_and_format_csv` (app.py lines
107-245).  The Ollama client is an oracle from the call number to its
outcome; the returned trace lists every issued chat call in order.  The
first call attaches the image; the correction call, triggered exactly when
the parsed first response is falsy, attaches none. -/
def extractAndFormatCsv (imageData columns instructions : String)
    (oracle : Nat → ChatOutcome) (model : Option String) (defaultModel : String) :
    Except ExtractErr Json × List ChatCall :=
  let columnList := pyColumnList columns
  let autoDetect := columnList.isEmpty
  match buildExtractionPrompt autoDetect columnList instructions with
  | none => (Except.error ExtractErr.indexError, [])
  | some extractionPrompt =>
    let modelToUse := resolveModel model defaultModel
    let call0 : ChatCall := ⟨modelToUse, extractionPrompt, [imageData]⟩
    match oracle 0 with
    | ChatOutcome.fail e => (Except.error (ExtractErr.chatError e), [call0])
    | ChatOutcome.ok raw0 =>
      let content := pyStrip raw0
      let formattedData := tryExtractJson content
      if pyTruthyOpt formattedData then (pyFinalize formattedData, [call0])
      else
        match buildCorrectionPrompt autoDetect columnList content with
        | none => (Except.error ExtractErr.indexError, [call0])
        | some correctionPrompt =>
          let call1 : ChatCall := ⟨modelToUse, correctionPrompt, []⟩
          match oracle 1 with
          | ChatOutcome.fail e => (Except.error (ExtractErr.chatError e), [call0, call1])
          | ChatOutcome.ok raw1 =>
            (pyFinalize (tryExtractJson (pyStrip raw1)), [call0, call1])

example : pyColumnList "name,email,phone" = ["name", "email", "phone"] := rfl
example : pyColumnList " " = [] := rfl
example : pyColumnList "," = [] := rfl
example : autoDetectMode "," = true := rfl
example : (buildExtractionPrompt false ["name", "email", "phone"] "") = none := rfl
example : (buildExtractionPrompt true [] "").isSome = true := rfl

/-- Does `needle` occur as a contiguous substring of `hay`? -/
def isSubChars : List Char → List Char → Bool
  | n, h =>
    if startsWith n h then true
    else
      match h with
      | [] => false
      | _ :: t => isSubChars n t

/-- String form of `isSubChars`. -/
def isSubstring (needle hay : String) : Bool :=
  isSubChars needle.data hay.data

/-- One row to be appended to the CSV file: a JSON-object row-mapping,
modelled as its insertion-ordered key/value list (a Python `dict`). -/
abbrev CsvRow := List (String × String)

/-- Keys of a row-mapping in insertion order (`rows[0].keys()`). -/
def rowKeys (r : CsvRow) : List String := r.map Prod.fst

/-- Python `dict` lookup (`row.get(key)`). -/
def lookupVal : CsvRow → String → Option String
  | [], _ => none
  | (k', v) :: rest, k => if k' = k then some v else lookupVal rest k

/-- Does the csv module's QUOTE_MINIMAL dialect quote this field?  Exactly
when it contains the delimiter, the quote character, or a character of the
`\r\n` line terminator. -/
def csvNeedsQuote (s : String) : Bool :=
  s.data.any (fun c => c = ',' || c = '"' || c = '\r' || c = '\n')

/-- Double every inner quote, as the csv module does inside a quoted field. -/
def csvEscape (s : String) : String :=
  String.mk ((s.data.map (fun c => if c = '"' then ['"', '"'] else [c])).flatten)

/-- One CSV field under QUOTE_MINIMAL. -/
def csvField (s : String) : String :=
  if csvNeedsQuote s then "\"" ++ csvEscape s ++ "\"" else s

/-- One CSV record: comma-separated fields plus the csv module's default
`\r\n` terminator. -/
def csvRecord (vals : List String) : String :=
  String.intercalate "," (vals.map csvField) ++ "\r\n"

/-- `DictWriter`'s check before writing a row: every key must be among the
fieldnames, otherwise `ValueError` (extrasaction is the default `raise`). -/
def rowConforms (fieldnames : List String) (r : CsvRow) : Bool :=
  r.all (fun kv => fieldnames.contains kv.1)

/-- The `for row in rows: writer.writerow(row)` loop: append one record per
row (missing keys become the empty restval), stopping with the error flag
set if a row has a key outside the fieldnames — earlier rows stay written,
as the exception aborts the loop after them. -/
def writeRows (fieldnames : List String) : List CsvRow → String → String × Bool
  | [], acc => (acc, false)
  | r :: rest, acc =>
    if rowConforms fieldnames r then
      writeRows fieldnames rest
        (acc ++ csvRecord (fieldnames.map (fun k => (lookupVal r k).getD "")))
    else (acc, true)

/-- The `/save` endpoint body (app.py lines 404-432).  The file is `none`
when `data/results.csv` does not exist; opening in append mode materialises
it.  The header — the first row's keys — is written only when the file was
absent or empty; then every row is appended.  The boolean is the
`ValueError` flag of a non-conforming row. -/
def save (rows : List CsvRow) (file : Option String) : Option String × Bool :=
  let fileExists := file.isSome
  let content := file.getD ""
  match rows with
  | [] => (some content, false)
  | r0 :: _ =>
    let fieldnames := rowKeys r0
    let content1 :=
      if !fileExists || content = "" then content ++ csvRecord fieldnames else content
    let written := writeRows fieldnames rows content1
    (some written.1, written.2)

example : csvRecord ["a,b", "c\"d", "e\nf", "plain", ""] =
    "\"a,b\",\"c\"\"d\",\"e\nf\",plain,\r\n" := rfl
example : save [[("a", "1")]] none = (some ("a\r\n1\r\n"), false) := rfl
example : isSubstring "name" "Required columns: name, email" = true := rfl
example : isSubstring "garbage" failMsg = false := rfl

/-- Concatenation of a list of strings, in order. -/
def strConcat : List String → String
  | [] => ""
  | s :: rest => s ++ strConcat rest

/-! ### Helper lemmas -/

theorem mk_eq_empty_iff (l : List Char) : String.mk l = "" ↔ l = [] :=
  ⟨fun h => congrArg String.data h, fun h => by rw [h]⟩

theorem mem_of_mem_dropWhile {p : Char → Bool} {l : List Char} {a : Char}
    (h : a ∈ l.dropWhile p) : a ∈ l := by
  induction l with
  | nil => simp at h
  | cons x t ih =>
    rw [List.dropWhile_cons] at h
    split at h
    · exact List.mem_cons_of_mem _ (ih h)
    · exact h

theorem pyStrip_eq_empty_iff (s : String) :
    pyStrip s = "" ↔ ∀ c ∈ s.data, pyIsSpace c := by
  unfold pyStrip
  rw [mk_eq_empty_iff, List.reverse_eq_nil_iff, List.dropWhile_eq_nil_iff]
  constructor
  · intro h c hc
    have hsplit : c ∈ s.data.takeWhile pyIsSpace ∨ c ∈ s.data.dropWhile pyIsSpace := by
      rw [← List.mem_append, List.takeWhile_append_dropWhile]
      exact hc
    rcases hsplit with h1 | h2
    · exact List.mem_takeWhile_imp h1
    · exact h c (List.mem_reverse.mpr h2)
  · intro h c hc
    exact h c (mem_of_mem_dropWhile (List.mem_reverse.mp hc))

theorem splitOnChar_chars_mem (sep : Char) :
    ∀ (cs : List Char) (x : List Char), x ∈ splitOnChar sep cs → ∀ c ∈ x, c ∈ cs := by
  intro cs
  induction cs with
  | nil =>
    intro x hx c hc
    simp [splitOnChar] at hx
    subst hx
    simp at hc
  | cons a t ih =>
    intro x hx c hc
    rw [splitOnChar] at hx
    by_cases ha : a = sep
    · rw [if_pos ha] at hx
      rcases List.mem_cons.mp hx with rfl | hmem
      · simp at hc
      · exact List.mem_cons_of_mem _ (ih x hmem c hc)
    · rw [if_neg ha] at hx
      cases hr : splitOnChar sep t with
      | nil =>
        rw [hr] at hx
        simp at hx
        subst hx
        simp at hc
        rw [hc]
        exact List.mem_cons_self a t
      | cons h0 t0 =>
        rw [hr] at hx
        simp only [List.mem_cons] at hx
        rcases hx with rfl | hmem
        · rcases List.mem_cons.mp hc with rfl | hc0
          · exact List.mem_cons_self c t
          · have hh : h0 ∈ splitOnChar sep t := by
              rw [hr]; exact List.mem_cons_self _ _
            exact List.mem_cons_of_mem _ (ih h0 hh c hc0)
        · have hh : x ∈ splitOnChar sep t := by
            rw [hr]; exact List.mem_cons_of_mem _ hmem
          exact List.mem_cons_of_mem _ (ih x hh c hc)

/-! ### C7: mode determination -/

/-- C7 (counterexample): for `columns = ","` the orchestrator enters
auto-detect mode although the columns string is not empty after trimming, so
"auto-detect iff empty after trimming" fails in the only-if direction. -/
theorem autoDetect_on_nonblank_comma_string :
    autoDetectMode "," = true ∧ pyStrip "," ≠ "" :=
  ⟨rfl, by decide⟩

/-- C7 (amended): the orchestrator enters auto-detect mode iff every
comma-separated segment of the columns string is blank (empty after
trimming); an empty-after-trimming string is the special case with no
non-blank segment, but strings such as `","` also auto-detect. -/
theorem autoDetectMode_iff_all_segments_blank (columns : String) :
    autoDetectMode columns = true ↔ ∀ seg ∈ pySplitComma columns, pyStrip seg = "" := by
  unfold autoDetectMode pyColumnList
  by_cases h : pyStrip columns = ""
  · rw [if_pos h]
    simp only [List.isEmpty_nil, true_iff]
    intro seg hseg
    obtain ⟨x, hx, rfl⟩ := List.mem_map.mp hseg
    rw [pyStrip_eq_empty_iff]
    intro c hc
    exact (pyStrip_eq_empty_iff columns).mp h c (splitOnChar_chars_mem ',' columns.data x hx c hc)
  · rw [if_neg h, List.isEmpty_iff, List.filter_eq_nil_iff]
    constructor
    · intro hf seg hseg
      have := hf (pyStrip seg) (List.mem_map_of_mem _ hseg)
      simpa using this
    · intro hall x hx
      obtain ⟨seg, hseg, rfl⟩ := List.mem_map.mp hx
      simp [hall seg hseg]

/-- C7 (witness): the amended equivalence applied at the concrete input
`","`, whose two segments are both blank. -/
theorem autoDetectMode_iff_all_segments_blank_witness : autoDetectMode "," = true :=
  (autoDetectMode_iff_all_segments_blank ",").mpr (by decide)

/-! ### C2: prompt construction -/

set_option maxRecDepth 8192 in
/-- C2: on the spec's own fixed-mode example `columns = "name,email,phone"`,
prompt construction does not succeed — the f-string example interpolates
`column_list[3]` and Python raises `IndexError` (modelled as `none`).  With
four or more columns the prompt is built and contains every caller-supplied
column name verbatim, and auto-detect mode always builds its prompt. -/
theorem fixed_mode_three_columns_prompt_crashes :
    buildExtractionPrompt (autoDetectMode "name,email,phone")
        (pyColumnList "name,email,phone") "" = none
    ∧ ((buildExtractionPrompt (autoDetectMode "name,email,phone,notes")
          (pyColumnList "name,email,phone,notes") "").elim false
        (fun p => isSubstring "name" p && isSubstring "email" p &&
          isSubstring "phone" p && isSubstring "notes" p)) = true
    ∧ (buildExtractionPrompt (autoDetectMode "") (pyColumnList "") "").isSome = true :=
  ⟨rfl, rfl, rfl⟩

/-! ### C5: braceless input -/

/-- C5 (counterexample): the text `"42"` contains no brace at all, yet the
parser returns the decoded number `42` through its whole-text strategy —
neither absence nor a JSON object. -/
theorem parse_braceless_numeric_text_returns_value :
    tryExtractJson "42" = some (Json.num "42")
    ∧ '{' ∉ "42".data ∧ '}' ∉ "42".data :=
  ⟨rfl, by decide, by decide⟩

theorem matchFence_none_of_no_brace (cs : List Char) (h : '{' ∉ cs) :
    matchFence cs = none := by
  unfold matchFence
  split
  · split
    next r3 heq =>
      exfalso
      apply h
      have h1 : '{' ∈ (if startsWith ['j','s','o','n'] (cs.drop 3) then cs.drop 7
          else cs.drop 3).dropWhile pyIsSpace := by
        rw [heq]; exact List.mem_cons_self _ _
      have h2 := mem_of_mem_dropWhile h1
      split at h2
      · exact List.mem_of_mem_drop h2
      · exact List.mem_of_mem_drop h2
    next heq => rfl
  · rfl

theorem scanFences_nil_of_no_brace :
    ∀ (fuel : Nat) (cs : List Char), '{' ∉ cs → scanFences fuel cs = [] := by
  intro fuel
  induction fuel with
  | zero => intro cs _; rfl
  | succ f ih =>
    intro cs h
    cases cs with
    | nil => rfl
    | cons c rest =>
      have hm := matchFence_none_of_no_brace (c :: rest) h
      rw [scanFences, hm]
      exact ih rest (fun hmem => h (List.mem_cons_of_mem _ hmem))

theorem firstIdx_eq_none (c : Char) (cs : List Char) (h : c ∉ cs) :
    firstIdx c cs = none := by
  induction cs with
  | nil => rfl
  | cons x xs ih =>
    rw [firstIdx, if_neg (fun hxc => h (by rw [← hxc]; exact List.mem_cons_self x xs)),
      ih (fun hm => h (List.mem_cons_of_mem _ hm))]
    rfl

/-- C5 (amended): on text containing no brace, the fenced-block and
brace-span strategies cannot fire, so the parser's result is exactly the
JSON decode of the whole trimmed text — absence only when that decode also
fails (bare JSON literals such as numbers or arrays are returned). -/
theorem tryExtractJson_no_brace_eq_whole_decode (content : String)
    (h1 : '{' ∉ content.data) (_h2 : '}' ∉ content.data) :
    tryExtractJson content = pyLoads (pyStrip content) := by
  have hf : fenceGroups content = [] := by
    unfold fenceGroups
    rw [scanFences_nil_of_no_brace _ _ h1]
    rfl
  have hb : braceScan content = none := by
    unfold braceScan
    rw [firstIdx_eq_none _ _ h1]
  unfold tryExtractJson
  rw [hf, hb]
  rfl

/-- C5 (witness): the amended statement applied at the braceless text
`"hello"`, where the whole-text decode fails and the parser indeed returns
nothing. -/
theorem tryExtractJson_no_brace_eq_whole_decode_witness :
    tryExtractJson "hello" = pyLoads (pyStrip "hello") :=
  tryExtractJson_no_brace_eq_whole_decode "hello" (by decide) (by decide)

/-! ### C3: strategy order -/

theorem firstIdx_getElem (c : Char) :
    ∀ (cs : List Char) (i : Nat), firstIdx c cs = some i →
      i < cs.length ∧ cs[i]? = some c := by
  intro cs
  induction cs with
  | nil => intro i h; simp [firstIdx] at h
  | cons x xs ih =>
    intro i h
    rw [firstIdx] at h
    by_cases hx : x = c
    · rw [if_pos hx] at h
      cases h
      simp [hx]
    · rw [if_neg hx] at h
      obtain ⟨k, hk, hki⟩ := Option.map_eq_some'.mp h
      obtain ⟨hlt, hget⟩ := ih k hk
      subst hki
      refine ⟨by simpa using Nat.succ_lt_succ hlt, ?_⟩
      simpa using hget

theorem lastIdx_getElem (c : Char) (cs : List Char) (e : Nat)
    (h : lastIdx c cs = some e) : cs[e]? = some c := by
  unfold lastIdx at h
  cases hfi : firstIdx c cs.reverse with
  | none => rw [hfi] at h; simp at h
  | some i =>
    rw [hfi] at h
    simp only [Option.some.injEq] at h
    obtain ⟨hlt, hget⟩ := firstIdx_getElem c cs.reverse i hfi
    rw [List.length_reverse] at hlt
    rw [List.getElem?_reverse (by simpa [List.length_reverse] using hlt)] at hget
    rw [← h]
    exact hget

theorem braceScan_eq_braceSpanStrategy (content : String) :
    braceScan content = braceSpanStrategy content := by
  unfold braceScan braceSpanStrategy
  cases hs : firstIdx '{' content.data with
  | none => rfl
  | some s =>
    cases he : lastIdx '}' content.data with
    | none => rfl
    | some e =>
      show (if s < e then pyLoads (strSlice content s (e + 1)) else none)
        = pyLoads (strSlice content s (e + 1))
      by_cases hlt : s < e
      · rw [if_pos hlt]
      · rw [if_neg hlt]
        have hse : e ≠ s := by
          intro heq
          have h1 := (firstIdx_getElem '{' content.data s hs).2
          have h2 := lastIdx_getElem '}' content.data e he
          rw [heq, h1] at h2
          simp at h2
        have hes : e < s := lt_of_le_of_ne (not_lt.mp hlt) hse
        have hempty : strSlice content s (e + 1) = "" := by
          unfold strSlice
          have h0 : e + 1 - s = 0 := by omega
          rw [h0, List.take_zero]
        rw [hempty]
        rfl

/-- C3: the response parser equals the spec's three strategies — fenced
blocks decoded in order of appearance with the first success winning, then
the first-`\x7b`-to-last-`\x7d` span decode, then the whole trimmed text,
and absence (never an error) when all fail.  The only textual difference,
the code's `end > start` guard on the span, is immaterial: when the last
`\x7d` precedes the first `\x7b` the spec's inclusive substring is empty and
cannot decode either. -/
theorem tryExtractJson_strategy_order (content : String) :
    tryExtractJson content = tryExtractJsonSpec content := by
  unfold tryExtractJson tryExtractJsonSpec fencedBlockStrategy wholeTextStrategy
  rw [braceScan_eq_braceSpanStrategy]

/-! ### C6: unique fenced object -/

theorem findSome?_of_filterMap_singleton {α β : Type} (f : α → Option β) (b : β) :
    ∀ (l : List α), l.filterMap f = [b] → l.findSome? f = some b := by
  intro l
  induction l with
  | nil => intro h; simp at h
  | cons a t ih =>
    intro h
    rw [List.filterMap_cons] at h
    rw [List.findSome?_cons]
    cases hfa : f a with
    | none => rw [hfa] at h; exact ih h
    | some v =>
      rw [hfa] at h
      simp at h
      simp [h.1]

/-- C6 (counterexample): this text contains exactly one well-formed fenced
JSON object (the enumeration over every starting position finds only
`\x7b"a":1\x7d`, inside the ```` ```json ```` fence), yet the parser returns
nothing: the backtick run in the prose before it starts an earlier fence
match whose lazy body swallows the real fence, the swallowed group does not
decode, and the scan resumes after it, so no strategy recovers the object. -/
theorem fenced_object_swallowed_by_earlier_fence :
    allFencedObjects "pre ``` \x7boops ``` mid ```json \x7b\"a\":1\x7d ```"
      = [Json.obj [("a", Json.num "1")]]
    ∧ tryExtractJson "pre ``` \x7boops ``` mid ```json \x7b\"a\":1\x7d ```" = none :=
  ⟨rfl, rfl⟩

/-- C6 (amended): whenever the fenced-block scan itself yields exactly one
match whose group decodes — in particular whenever surrounding prose is free
of the brace/backtick patterns that derail the scan — the parser returns
exactly that object.  The counterexample shows the original claim's
hypothesis ("the text contains exactly one well-formed fenced JSON object")
is not enough when prose contains an earlier backtick run followed by a
brace. -/
theorem tryExtractJson_unique_decodable_fence (content : String) (j : Json)
    (h : (fenceGroups content).filterMap (fun g => pyLoads (pyStrip g)) = [j]) :
    tryExtractJson content = some j := by
  unfold tryExtractJson
  rw [findSome?_of_filterMap_singleton _ _ _ h]

/-- C6 (witness): the amended statement applied to a fenced object with
plain prose on both sides. -/
theorem tryExtractJson_unique_decodable_fence_witness :
    tryExtractJson "Result: ```json\n\x7b\"a\": 1\x7d\n``` done." =
      some (Json.obj [("a", Json.num "1")]) :=
  tryExtractJson_unique_decodable_fence _ _ rfl

/-! ### Substring lemmas for the correction-prompt claims -/

theorem startsWith_append_self (n post : List Char) : startsWith n (n ++ post) = true := by
  induction n with
  | nil => rfl
  | cons c t ih => simp [startsWith, ih]

theorem isSubChars_append_mid (n : List Char) :
    ∀ pre post : List Char, isSubChars n (pre ++ (n ++ post)) = true := by
  intro pre
  induction pre with
  | nil =>
    intro post
    unfold isSubChars
    rw [List.nil_append, startsWith_append_self]
    rfl
  | cons c t ih =>
    intro post
    rw [List.cons_append]
    unfold isSubChars
    by_cases hsw : startsWith n (c :: (t ++ (n ++ post))) = true
    · rw [if_pos hsw]
    · rw [if_neg hsw]
      exact ih post

theorem isSubstring_of_decomp (n hay : String) (pre post : List Char)
    (h : hay.data = pre ++ (n.data ++ post)) : isSubstring n hay = true := by
  unfold isSubstring
  rw [h]
  exact isSubChars_append_mid n.data pre post

theorem buildCorrectionPrompt_isSome (a : Bool) (l : List String) (instructions content : String)
    (h : (buildExtractionPrompt a l instructions).isSome = true) :
    (buildCorrectionPrompt a l content).isSome = true := by
  cases a with
  | true => rfl
  | false =>
    simp only [buildExtractionPrompt] at h
    simp only [buildCorrectionPrompt]
    cases hc0 : l[0]? <;> cases hc1 : l[1]? <;> cases hc2 : l[2]? <;> cases hc3 : l[3]? <;>
      simp_all

set_option maxRecDepth 16384 in
theorem correction_embeds (a : Bool) (l : List String) (content p : String)
    (h : buildCorrectionPrompt a l content = some p) :
    isSubstring content p = true
    ∧ ∃ ex, schemaContract a l = some ex ∧ isSubstring ex p = true := by
  cases a with
  | true =>
    have hp : autoCorrectionPrompt content = p := Option.some.inj h
    subst hp
    refine ⟨?_, jsonExampleAuto, rfl, ?_⟩
    · exact isSubstring_of_decomp _ _
        ("The previous extraction response was not valid JSON. Please fix it.\n\nPrevious response:\n").data
        (("\n\nReturn ONLY valid JSON in this format (use the actual headers detected from the image):\n").data
          ++ jsonExampleAuto.data)
        (by simp [autoCorrectionPrompt, String.data_append, List.append_assoc])
    · exact isSubstring_of_decomp _ _
        (("The previous extraction response was not valid JSON. Please fix it.\n\nPrevious response:\n").data
          ++ content.data
          ++ ("\n\nReturn ONLY valid JSON in this format (use the actual headers detected from the image):\n").data)
        []
        (by simp [autoCorrectionPrompt, String.data_append, List.append_assoc])
  | false =>
    have h' : (match l[0]?, l[1]?, l[2]?, l[3]? with
        | some c0, some c1, some c2, some c3 =>
          some (fixedCorrectionPrompt l c0 c1 c2 c3 content)
        | _, _, _, _ => none) = some p := h
    clear h
    cases hc0 : l[0]? with
    | none => rw [hc0] at h'; simp at h'
    | some c0 =>
      rw [hc0] at h'
      cases hc1 : l[1]? with
      | none => rw [hc1] at h'; simp at h'
      | some c1 =>
        rw [hc1] at h'
        cases hc2 : l[2]? with
        | none => rw [hc2] at h'; simp at h'
        | some c2 =>
          rw [hc2] at h'
          cases hc3 : l[3]? with
          | none => rw [hc3] at h'; simp at h'
          | some c3 =>
            rw [hc3] at h'
            simp only [Option.some.injEq] at h'
            subst h'
            refine ⟨?_, jsonExampleFixed c0 c1 c2 c3, ?_, ?_⟩
            · exact isSubstring_of_decomp _ _
                (("The previous extraction response was not valid JSON. Please fix it.\n\nRequired columns: ").data
                  ++ (String.intercalate ", " l).data
                  ++ ("\n\nPrevious response:\n").data)
                (("\n\nReturn ONLY valid JSON in this format:\n").data
                  ++ (jsonExampleFixed c0 c1 c2 c3).data)
                (by simp [fixedCorrectionPrompt, String.data_append, List.append_assoc])
            · simp [schemaContract, hc0, hc1, hc2, hc3]
            · exact isSubstring_of_decomp _ _
                (("The previous extraction response was not valid JSON. Please fix it.\n\nRequired columns: ").data
                  ++ (String.intercalate ", " l).data
                  ++ ("\n\nPrevious response:\n").data
                  ++ content.data
                  ++ ("\n\nReturn ONLY valid JSON in this format:\n").data)
                []
                (by simp [fixedCorrectionPrompt, String.data_append, List.append_assoc])

/-! ### C8: transport failure on the first call -/

/-- C8: when the first `chat` call raises a transport/auth/timeout error,
the orchestrator aborts at once — the error propagates unmodified (same
message, no wrapping), exactly one call was issued, and no correction call
follows. -/
theorem transport_failure_first_call_aborts (imageData columns instructions : String)
    (oracle : Nat → ChatOutcome) (model : Option String) (defaultModel : String)
    (p0 e : String)
    (hp : buildExtractionPrompt (pyColumnList columns).isEmpty (pyColumnList columns)
      instructions = some p0)
    (he : oracle 0 = ChatOutcome.fail e) :
    extractAndFormatCsv imageData columns instructions oracle model defaultModel =
      (Except.error (ExtractErr.chatError e),
        [⟨resolveModel model defaultModel, p0, [imageData]⟩]) := by
  simp only [extractAndFormatCsv, hp, he]

/-- C8 (witness): a concrete auto-detect request whose first call fails with
a connection error. -/
theorem transport_failure_first_call_aborts_witness :
    extractAndFormatCsv "img" "" "" (fun _ => ChatOutcome.fail "connection refused")
        none "qwen2.5vl:7b" =
      (Except.error (ExtractErr.chatError "connection refused"),
        [⟨resolveModel none "qwen2.5vl:7b", autoExtractionPrompt "", ["img"]⟩]) :=
  transport_failure_first_call_aborts "img" "" "" _ none "qwen2.5vl:7b"
    (autoExtractionPrompt "") "connection refused" rfl rfl

/-! ### C1: double parse failure -/

/-- C1 (counterexample): with a model answering unparseable text on both
calls, the extraction fails after exactly 2 calls, but the raised error
carries only the fixed message `"Failed to extract and format data from
image"` — the last raw model response (`"garbage two"`) is not part of it,
contradicting "carrying the last raw model response text for diagnostics". -/
theorem extractionFailed_lacks_raw_response_text :
    (extractAndFormatCsv "img" "" ""
        (fun n => if n = 0 then ChatOutcome.ok "garbage one" else ChatOutcome.ok "garbage two")
        none "m").1 = Except.error (ExtractErr.extractionFailed failMsg)
    ∧ (extractAndFormatCsv "img" "" ""
        (fun n => if n = 0 then ChatOutcome.ok "garbage one" else ChatOutcome.ok "garbage two")
        none "m").2.length = 2
    ∧ isSubstring "garbage two" failMsg = false :=
  ⟨rfl, rfl, rfl⟩

/-- C1 (amended): when the parser yields nothing on both the initial and
the corrective response, the extraction fails after exactly 2 calls with the
`ExtractionFailed` error carrying the fixed diagnostic message (not the raw
response text, which is only logged). -/
theorem extract_double_parse_failure_fixed_message
    (imageData columns instructions : String) (oracle : Nat → ChatOutcome)
    (model : Option String) (defaultModel : String) (t0 t1 : String)
    (hp : (buildExtractionPrompt (pyColumnList columns).isEmpty (pyColumnList columns)
      instructions).isSome = true)
    (h0 : oracle 0 = ChatOutcome.ok t0)
    (h1 : oracle 1 = ChatOutcome.ok t1)
    (hf0 : tryExtractJson (pyStrip t0) = none)
    (hf1 : tryExtractJson (pyStrip t1) = none) :
    (extractAndFormatCsv imageData columns instructions oracle model defaultModel).1
      = Except.error (ExtractErr.extractionFailed failMsg)
    ∧ (extractAndFormatCsv imageData columns instructions oracle model defaultModel).2.length
      = 2 := by
  obtain ⟨p0, hp0⟩ := Option.isSome_iff_exists.mp hp
  obtain ⟨p1, hp1⟩ := Option.isSome_iff_exists.mp
    (buildCorrectionPrompt_isSome _ _ instructions (pyStrip t0) (by rw [hp0]; rfl))
  simp only [extractAndFormatCsv, hp0, h0, h1, hf0, hf1, hp1, pyTruthyOpt, pyFinalize]
  simp

/-- C1 (witness): the amended statement at a concrete scenario with
unparseable text on both calls. -/
theorem extract_double_parse_failure_fixed_message_witness :
    (extractAndFormatCsv "img" "" ""
        (fun n => if n = 0 then ChatOutcome.ok "junk A" else ChatOutcome.ok "junk B")
        none "m").1 = Except.error (ExtractErr.extractionFailed failMsg)
    ∧ (extractAndFormatCsv "img" "" ""
        (fun n => if n = 0 then ChatOutcome.ok "junk A" else ChatOutcome.ok "junk B")
        none "m").2.length = 2 :=
  extract_double_parse_failure_fixed_message "img" "" "" _ none "m" "junk A" "junk B"
    rfl rfl rfl rfl rfl

/-! ### C4: successful self-correction -/

/-- C4 (counterexample): `"\x7b\x7d"` is well-formed JSON and the parser
decodes it to the empty object, yet when the second call returns it the
orchestrator does not return that parsed result — the empty object is
Python-falsy, so `if formatted_data` fails and the extraction raises
instead. -/
theorem extract_wellformed_falsy_second_response_fails :
    tryExtractJson (pyStrip "\x7b\x7d") = some (Json.obj [])
    ∧ (extractAndFormatCsv "img" "" ""
        (fun n => if n = 0 then ChatOutcome.ok "garbage" else ChatOutcome.ok "\x7b\x7d")
        none "m").1 = Except.error (ExtractErr.extractionFailed failMsg) :=
  ⟨rfl, rfl⟩

/-- C4 (amended): when the first response parses to nothing and the second
parses to a Python-truthy value `j` (for well-formed JSON this excludes only
falsy values such as the empty object), the orchestrator returns `j`, issued
exactly 2 calls, and the second call attaches no image while its prompt
embeds the captured (stripped) first response together with the original
schema contract of the chosen mode. -/
theorem extract_correction_success
    (imageData columns instructions : String) (oracle : Nat → ChatOutcome)
    (model : Option String) (defaultModel : String) (t0 t1 : String) (j : Json)
    (hp : (buildExtractionPrompt (pyColumnList columns).isEmpty (pyColumnList columns)
      instructions).isSome = true)
    (h0 : oracle 0 = ChatOutcome.ok t0)
    (h1 : oracle 1 = ChatOutcome.ok t1)
    (hf0 : tryExtractJson (pyStrip t0) = none)
    (hs : tryExtractJson (pyStrip t1) = some j)
    (ht : pyTruthy j = true) :
    (extractAndFormatCsv imageData columns instructions oracle model defaultModel).1
      = Except.ok j
    ∧ (extractAndFormatCsv imageData columns instructions oracle model defaultModel).2.length
      = 2
    ∧ ∃ corr, (extractAndFormatCsv imageData columns instructions oracle model
          defaultModel).2[1]? = some corr
        ∧ corr.images = []
        ∧ isSubstring (pyStrip t0) corr.content = true
        ∧ ∃ ex, schemaContract (pyColumnList columns).isEmpty (pyColumnList columns) = some ex
            ∧ isSubstring ex corr.content = true := by
  obtain ⟨p0, hp0⟩ := Option.isSome_iff_exists.mp hp
  obtain ⟨p1, hp1⟩ := Option.isSome_iff_exists.mp
    (buildCorrectionPrompt_isSome _ _ instructions (pyStrip t0) (by rw [hp0]; rfl))
  have hemb := correction_embeds _ _ _ _ hp1
  simp only [extractAndFormatCsv, hp0, h0, h1, hf0, hs, hp1, pyTruthyOpt, pyFinalize]
  refine ⟨by simp [ht], by simp, ?_⟩
  refine ⟨⟨resolveModel model defaultModel, p1, []⟩, by simp, rfl, hemb.1, hemb.2⟩

/-- C4 (witness): the amended statement at a concrete auto-detect scenario —
malformed text first, then a well-formed non-empty object. -/
theorem extract_correction_success_witness :
    (extractAndFormatCsv "img" "" ""
        (fun n => if n = 0 then ChatOutcome.ok "junk" else ChatOutcome.ok "\x7b\"a\": 1\x7d")
        none "m").1 = Except.ok (Json.obj [("a", Json.num "1")])
    ∧ (extractAndFormatCsv "img" "" ""
        (fun n => if n = 0 then ChatOutcome.ok "junk" else ChatOutcome.ok "\x7b\"a\": 1\x7d")
        none "m").2.length = 2
    ∧ ∃ corr, (extractAndFormatCsv "img" "" ""
          (fun n => if n = 0 then ChatOutcome.ok "junk" else ChatOutcome.ok "\x7b\"a\": 1\x7d")
          none "m").2[1]? = some corr
        ∧ corr.images = []
        ∧ isSubstring (pyStrip "junk") corr.content = true
        ∧ ∃ ex, schemaContract (pyColumnList "").isEmpty (pyColumnList "") = some ex
            ∧ isSubstring ex corr.content = true :=
  extract_correction_success "img" "" "" _ none "m" "junk" "\x7b\"a\": 1\x7d"
    (Json.obj [("a", Json.num "1")]) rfl rfl rfl rfl rfl rfl

/-! ### C10: model resolution -/

/-- C10: every issued call — extraction and correction alike — uses the
resolved model, and the resolution maps an absent (`None`) or empty model
identifier to the configured default while any non-empty identifier is used
verbatim. -/
theorem model_resolution_both_calls (imageData columns instructions : String)
    (oracle : Nat → ChatOutcome) (model : Option String) (defaultModel : String) :
    (∀ c ∈ (extractAndFormatCsv imageData columns instructions oracle model defaultModel).2,
      c.model = resolveModel model defaultModel)
    ∧ resolveModel none defaultModel = defaultModel
    ∧ resolveModel (some "") defaultModel = defaultModel
    ∧ ∀ m : String, m ≠ "" → resolveModel (some m) defaultModel = m := by
  refine ⟨?_, rfl, rfl, fun m hm => by simp [resolveModel, hm]⟩
  intro c hc
  simp only [extractAndFormatCsv] at hc
  split at hc
  · simp at hc
  · split at hc
    · simp at hc
      subst hc
      rfl
    · split at hc
      · simp at hc
        subst hc
        rfl
      · split at hc
        · simp at hc
          subst hc
          rfl
        · split at hc
          · simp at hc
            rcases hc with rfl | rfl <;> rfl
          · simp at hc
            rcases hc with rfl | rfl <;> rfl

/-- C10 (witness): a non-empty model identifier is used verbatim. -/
theorem model_resolution_both_calls_witness :
    resolveModel (some "llava:13b") "qwen2.5vl:7b" = "llava:13b" :=
  (model_resolution_both_calls "i" "" "" (fun _ => ChatOutcome.ok "") (some "llava:13b")
    "qwen2.5vl:7b").2.2.2 "llava:13b" (by decide)

/-! ### C9: CSV append -/

theorem writeRows_ok (fieldnames : List String) :
    ∀ (rows : List CsvRow) (acc : String),
      (∀ r ∈ rows, rowConforms fieldnames r = true) →
      writeRows fieldnames rows acc =
        (acc ++ strConcat (rows.map (fun r =>
          csvRecord (fieldnames.map (fun k => (lookupVal r k).getD "")))), false) := by
  intro rows
  induction rows with
  | nil =>
    intro acc _
    simp [writeRows, strConcat]
  | cons r rest ih =>
    intro acc h
    have hr := h r (List.mem_cons_self r rest)
    rw [writeRows, if_pos hr, ih _ (fun r' hr' => h r' (List.mem_cons_of_mem _ hr'))]
    simp [strConcat, String.append_assoc]

theorem csvRecord_ne_empty_head (fn : List String) (rest : String) :
    csvRecord fn ++ rest ≠ "" := by
  intro hE
  have hlen := congrArg String.length hE
  rw [String.length_append] at hlen
  unfold csvRecord at hlen
  rw [String.length_append] at hlen
  have h2 : ("\r\n" : String).length = 2 := rfl
  rw [h2] at hlen
  simp at hlen

/-- C9: appending two nonempty row batches with identical column sets to an
initially absent file yields exactly one header record — built from the
first ever appended row-mapping's keys — followed by one record per row in
append order, with no error and no second header (the second `save` sees a
nonempty file and skips `writeheader`). -/
theorem save_appends_single_header (r1 : CsvRow) (rs1 : List CsvRow)
    (r2 : CsvRow) (rs2 : List CsvRow)
    (h1 : ∀ r ∈ r1 :: rs1, rowConforms (rowKeys r1) r = true)
    (h2 : ∀ r ∈ r2 :: rs2, rowConforms (rowKeys r2) r = true)
    (_hsame : ∀ k, k ∈ rowKeys r2 ↔ k ∈ rowKeys r1) :
    save (r2 :: rs2) (save (r1 :: rs1) none).1 =
      (some (csvRecord (rowKeys r1)
        ++ strConcat ((r1 :: rs1).map (fun r =>
            csvRecord ((rowKeys r1).map (fun k => (lookupVal r k).getD ""))))
        ++ strConcat ((r2 :: rs2).map (fun r =>
            csvRecord ((rowKeys r2).map (fun k => (lookupVal r k).getD ""))))),
       false) := by
  have s1 : save (r1 :: rs1) none =
      (some (csvRecord (rowKeys r1)
        ++ strConcat ((r1 :: rs1).map (fun r =>
            csvRecord ((rowKeys r1).map (fun k => (lookupVal r k).getD ""))))), false) := by
    simp only [save, Option.isSome_none, Option.getD_none, Bool.not_false, Bool.true_or,
      if_true]
    rw [writeRows_ok (rowKeys r1) (r1 :: rs1) _ h1]
    simp
  rw [s1]
  have hne := csvRecord_ne_empty_head (rowKeys r1)
    (strConcat ((r1 :: rs1).map (fun r =>
      csvRecord ((rowKeys r1).map (fun k => (lookupVal r k).getD "")))))
  simp only [save, Option.isSome_some, Option.getD_some, Bool.not_true, Bool.false_or]
  rw [if_neg (by simpa using hne)]
  rw [writeRows_ok (rowKeys r2) (r2 :: rs2) _ h2]

/-- C9 (witness): two concrete single-row batches over the columns
`a`, `b`. -/
theorem save_appends_single_header_witness :
    save [[("a", "3"), ("b", "4")]] (save [[("a", "1"), ("b", "2")]] none).1 =
      (some (csvRecord (rowKeys [("a", "1"), ("b", "2")])
        ++ strConcat ([[("a", "1"), ("b", "2")]].map (fun r =>
            csvRecord ((rowKeys [("a", "1"), ("b", "2")]).map
              (fun k => (lookupVal r k).getD ""))))
        ++ strConcat ([[("a", "3"), ("b", "4")]].map (fun r =>
            csvRecord ((rowKeys [("a", "3"), ("b", "4")]).map
              (fun k => (lookupVal r k).getD ""))))),
       false) :=
  save_appends_single_header [("a", "1"), ("b", "2")] [] [("a", "3"), ("b", "4")] []
    (by decide) (by decide) (fun _ => Iff.rfl)

end Hwss
